import Mathlib

/-!
# Verification of the BloomWatch analytical core

Shallow embedding of the analytical pipeline of the repository
(`src/analysis.py` and `src/prediction_model.py`) and proofs of the
spec-level claims about it.

Conventions of the embedding:
* floating point numbers are embedded as rationals (`Rat`);
* a pandas `NaN`/`NaT`/`pd.NA` cell is embedded as `none` of an `Option`;
* a pandas timestamp is embedded as `PDate`, carrying the calendar year,
  the calendar month and the absolute day number; timestamp comparison and
  subtraction (`.days`) act on the absolute day, `dt.year` / `dt.month`
  read the calendar fields;
* in the correlation engine, where only month arithmetic matters, a date
  is embedded as the month index `12 * year + (month - 1)`, so that the
  calendar year is `Int.fdiv date 12`;
* pandas `sort_values` is a stable sort, embedded as `List.insertionSort`;
* fitted scikit-learn gradient-boosting models are opaque learned
  functions; they are embedded as function-valued parameters (`MLContext`)
  because no claim depends on the learned values, while the structural
  models (`DummyClassifier`, `SimpleImputer`) are embedded concretely.
-/

set_option maxRecDepth 8000

namespace BloomWatch

/-- A calendar date: year, month (1–12) and absolute day number.
`day` is the number of days since a fixed epoch, so differences of `day`
are differences in days (pandas `(b - a).days`). -/
structure PDate where
  year : Int
  month : Nat
  day : Int
deriving DecidableEq, Repr

/-! ## Embedding of `analyze_bloom_season` (`src/analysis.py`) -/

/-- A row of `data/raw/modis_ndvi_monthly.csv` after date parsing:
a date and the NDVI value (`none` = NaN). -/
structure NdviRow where
  date : PDate
  ndvi : Option Rat
deriving DecidableEq, Repr

/-- A row after `dropna(subset=["NDVI"])`: the NDVI value is present. -/
structure CleanRow where
  date : PDate
  ndvi : Rat
deriving DecidableEq, Repr

/-- The `sort_values("date")` ordering on raw NDVI rows. -/
def ndviDateLe (a b : NdviRow) : Prop := a.date.day ≤ b.date.day

instance : DecidableRel ndviDateLe :=
  fun a b => inferInstanceAs (Decidable (a.date.day ≤ b.date.day))

/-- `df.sort_values("date").dropna(subset=["NDVI"])`. -/
def cleanSeries (rows : List NdviRow) : List CleanRow :=
  (List.insertionSort ndviDateLe rows).filterMap
    (fun r => r.ndvi.map (fun v => CleanRow.mk r.date v))

/-- pandas `Series.quantile(q)`: linear interpolation on the sorted
values at position `q * (n - 1)`.  The value on an empty series is never
used by callers (they guard emptiness); it is set to `0`. -/
def quantileLinear (q : Rat) (xs : List Rat) : Rat :=
  let s := List.insertionSort (fun a b : Rat => a ≤ b) xs
  let n := s.length
  if n = 0 then 0
  else
    let pos : Rat := q * ((n : Rat) - 1)
    let i : Nat := (⌊pos⌋).toNat
    let lo := s.getD i 0
    let hi := s.getD (i + 1) lo
    lo + (pos - (i : Rat)) * (hi - lo)

/-- `Series.min()` over a date column: the date with the least absolute
day (`none` on an empty selection). -/
def minDay : List PDate → Option PDate
  | [] => none
  | d :: ds => some (ds.foldl (fun a b => if b.day < a.day then b else a) d)

/-- `Series.max()` over a date column. -/
def maxDay : List PDate → Option PDate
  | [] => none
  | d :: ds => some (ds.foldl (fun a b => if a.day < b.day then b else a) d)

/-- `_detect_bloom(df, thr)`: first/last date with `NDVI >= thr`, or
`(None, None)` when the mask is empty. -/
def detectBloom (g : List CleanRow) (thr : Rat) : Option (PDate × PDate) :=
  let hits := (g.filter (fun r => thr ≤ r.ndvi)).map (fun r => r.date)
  match minDay hits, maxDay hits with
  | some dOn, some dOff => some (dOn, dOff)
  | _, _ => none

/-- `df.groupby(df["date"].dt.year)` iterates the distinct years in
ascending order. -/
def yearsOf (df : List CleanRow) : List Int :=
  List.insertionSort (fun a b : Int => a ≤ b) ((df.map (fun r => r.date.year)).dedup)

/-- The rows of one year group. -/
def yearGroup (df : List CleanRow) (y : Int) : List CleanRow :=
  df.filter (fun r => r.date.year = y)

/-- One row of `bloom_periods_*.csv`: appended only when a window was
detected (`on is not None`), with `duration = (off - on).days`. -/
structure BloomRecord where
  year : Int
  bloom_start : PDate
  bloom_end : PDate
  duration_days : Int
deriving DecidableEq, Repr

/-- One row of `bloom_threshold_sensitivity.csv`. -/
structure SensRow where
  quantile : Rat
  years_with_bloom : Nat
  years_total : Nat
deriving DecidableEq, Repr

/-- The detection mode argument of `analyze_bloom_season`. -/
inductive Mode
  | global
  | annual
deriving DecidableEq, Repr

/-- The per-year loop body shared by both branches of
`analyze_bloom_season`: for each year group, run `_detect_bloom` at that
year's threshold and append a record only when a window was found. -/
def bloomRowsAt (df : List CleanRow) (thrOf : Int → Rat) : List BloomRecord :=
  (yearsOf df).filterMap (fun y =>
    (detectBloom (yearGroup df y) (thrOf y)).map
      (fun p => BloomRecord.mk y p.1 p.2 (p.2.day - p.1.day)))

/-- `analyze_bloom_season(mode)`: returns the bloom-period table and, in
global mode only, the threshold-sensitivity table. -/
def analyzeBloomSeason (mode : Mode) (input : List NdviRow) :
    List BloomRecord × Option (List SensRow) :=
  let df := cleanSeries input
  match mode with
  | Mode.global =>
      let thr := quantileLinear (3/4) (df.map (fun r => r.ndvi))
      let rows := bloomRowsAt df (fun _ => thr)
      let sens := [((13 : Rat)/20), 3/4, 4/5].map (fun q =>
        let t := quantileLinear q (df.map (fun r => r.ndvi))
        let active := (yearsOf df).map (fun y =>
          if (detectBloom (yearGroup df y) t).isSome then (1 : Nat) else 0)
        SensRow.mk q active.sum active.length)
      (rows, some sens)
  | Mode.annual =>
      let rows := bloomRowsAt df (fun y =>
        quantileLinear (3/4) ((yearGroup df y).map (fun r => r.ndvi)))
      (rows, none)

/-- The threshold `analyze_bloom_season` applies to the year `y` in each
mode. -/
def thresholdFor (mode : Mode) (df : List CleanRow) (y : Int) : Rat :=
  match mode with
  | Mode.global => quantileLinear (3/4) (df.map (fun r => r.ndvi))
  | Mode.annual => quantileLinear (3/4) ((yearGroup df y).map (fun r => r.ndvi))

/-! ## Embedding of `correlate_rain_ndvi` (`src/analysis.py`) -/

/-- A row of the master feature table, restricted to the columns the
correlation uses.  `date` is the month index `12 * year + (month - 1)`
(the coercion `pd.to_numeric(..., errors="coerce")` is the identity here
because the embedding is already typed). -/
structure CRow where
  date : Int
  ndvi : Option Rat
  precip : Option Rat
deriving DecidableEq, Repr

/-- `dt.year` of a month index. -/
def yearOfMonth (m : Int) : Int := Int.fdiv m 12

/-- A row of the cleaned base: both values present. -/
structure BaseRow where
  date : Int
  ndvi : Rat
  precip : Rat
deriving DecidableEq, Repr

/-- The `sort_values("date")` ordering on master-table rows. -/
def crowLe (a b : CRow) : Prop := a.date ≤ b.date

instance : DecidableRel crowLe :=
  fun a b => inferInstanceAs (Decidable (a.date ≤ b.date))

instance : IsTotal CRow crowLe := ⟨fun a b => Int.le_total a.date b.date⟩

instance : IsTrans CRow crowLe := ⟨fun _ _ _ hab hbc => le_trans hab hbc⟩

/-- The year filter `2015 <= date.dt.year <= 2025`. -/
def inStudyYears (r : CRow) : Bool :=
  decide (2015 ≤ yearOfMonth r.date) && decide (yearOfMonth r.date ≤ 2025)

/-- `df.sort_values("date")`, then the 2015–2025 year restriction, then
`df[["date","NDVI","precip_mm"]].dropna(subset=["NDVI","precip_mm"])`. -/
def corrBase (t : List CRow) : List BaseRow :=
  ((List.insertionSort crowLe t).filter inStudyYears).filterMap
    (fun r => match r.ndvi, r.precip with
      | some a, some b => some (BaseRow.mk r.date a b)
      | _, _ => none)

/-- Arithmetic mean (callers guard against the empty list). -/
def mean (xs : List Rat) : Rat := xs.sum / (xs.length : Rat)

/-- Sample variance with `ddof = 1` (callers only use it on samples of at
least 3 elements). -/
def sampleVar (xs : List Rat) : Rat :=
  ((xs.map (fun x => (x - mean xs) ^ 2)).sum) / ((xs.length : Rat) - 1)

/-- `np.isclose(series.std(ddof=1), 0.0)` with numpy defaults is
`|std| <= atol + rtol * 0 = 1e-8`; since `std = sqrt(var) >= 0` this is
exactly `var <= 1e-16`, which is rational-exact. -/
def stdCloseToZero (xs : List Rat) : Bool :=
  decide (sampleVar xs ≤ 1 / 10 ^ 16)

/-- Sample covariance with `ddof = 1`. -/
def sampleCov (xs ys : List Rat) : Rat :=
  (((xs.zip ys).map (fun p => (p.1 - mean xs) * (p.2 - mean ys))).sum) /
    ((xs.length : Rat) - 1)

/-- The data determining the Pearson coefficient
`r = cov / (sqrt varX * sqrt varY)`: the square root is irrational, so
the exact rational components are recorded instead of `r` itself (no
claim depends on the numeric value of `r`, only on its definedness). -/
structure PearsonR where
  cov : Rat
  varX : Rat
  varY : Rat
deriving DecidableEq, Repr

/-- One row of `rain_ndvi_correlation.csv`; `r_pearson = none` embeds the
`np.nan` written for degenerate lags. -/
structure CorrRecord where
  lag_months : Nat
  r_pearson : Option PearsonR
  n_pairs : Nat
deriving DecidableEq, Repr

/-- The valid pairs at a lag: `tmp["precip_lag"] = precip.shift(lag)`
followed by `dropna` pairs row `i` of the base (its NDVI) with row
`i - lag` (its precipitation).  The pair is `(current row, lagged row)`.
The shift is positional on the cleaned base, not calendar-month
arithmetic. -/
def pairsAtLag (base : List BaseRow) (lag : Nat) : List (BaseRow × BaseRow) :=
  (base.drop lag).zip base

/-- The loop body of `correlate_rain_ndvi` for one lag, restarting from
the full cleaned base (`tmp = base.copy()`). -/
def mkCorrRecord (base : List BaseRow) (lag : Nat) : CorrRecord :=
  let pairs := pairsAtLag base lag
  let precipLag := pairs.map (fun p => p.2.precip)
  let ndviNow := pairs.map (fun p => p.1.ndvi)
  if pairs.length < 3 ∨ stdCloseToZero precipLag ∨ stdCloseToZero ndviNow then
    CorrRecord.mk lag none pairs.length
  else
    CorrRecord.mk lag
      (some (PearsonR.mk (sampleCov precipLag ndviNow)
        (sampleVar precipLag) (sampleVar ndviNow)))
      pairs.length

/-- `correlate_rain_ndvi(features, max_lag)`: one record per lag in
`range(0, max_lag + 1)`. -/
def correlateRainNdvi (t : List CRow) (maxLag : Nat) : List CorrRecord :=
  (List.range (maxLag + 1)).map (mkCorrRecord (corrBase t))

/-! ## Embedding of `src/prediction_model.py` -/

/-- A row of `features_monthly.csv`, restricted to the columns the model
reads (`none` = NaN). -/
structure FeatRow where
  date : PDate
  NDVI : Option Rat
  LST_C : Option Rat
  precip_mm : Option Rat
  soil_moisture : Option Rat
  s2_ndvi : Option Rat
deriving DecidableEq, Repr

/-- A row of the bloom-period CSV as loaded with
`parse_dates=["bloom_start", "bloom_end"]`: an unparseable or missing
date is `NaT` (`none`); `year` is read with `int(...)`. -/
structure BloomPeriodRow where
  year : Int
  bloom_start : Option PDate
  bloom_end : Option PDate
deriving DecidableEq, Repr

/-- A labeled monthly row, the output of `_attach_labels`
(`is_bloom = none` embeds `pd.NA`). -/
structure LRow where
  feat : FeatRow
  year : Int
  is_bloom : Option Nat
  label_available : Bool
deriving DecidableEq, Repr

/-- `(df["date"] >= start) & (df["date"] <= end)` for one row: a `NaT`
bound makes both comparisons `False`. -/
def coveredBy (bp : BloomPeriodRow) (d : PDate) : Bool :=
  match bp.bloom_start, bp.bloom_end with
  | some s, some e => decide (s.day ≤ d.day) && decide (d.day ≤ e.day)
  | _, _ => false

/-- One iteration of the `for _, row in bloom_periods.iterrows()` loop of
`_attach_labels`: skipped entirely (`continue`) when no monthly row has
the record's year; otherwise `label_available` is set on the year's rows
and `is_bloom` is set to 1 on every row the window covers. -/
def applyBloomRecord (rows : List LRow) (bp : BloomPeriodRow) : List LRow :=
  if rows.any (fun r => r.year = bp.year) then
    rows.map (fun r =>
      { r with
        label_available := r.label_available || decide (r.year = bp.year),
        is_bloom := if coveredBy bp r.feat.date then some 1 else r.is_bloom })
  else rows

/-- The initial labeled row of `_attach_labels`:
`year = date.dt.year`, `is_bloom = 0`, `label_available = False`. -/
def initRow (f : FeatRow) : LRow := LRow.mk f f.date.year (some 0) false

/-- `_attach_labels(features, bloom_periods)`: initialise with `initRow`,
apply every bloom record in order, then reset `is_bloom` to `pd.NA` on
rows without a label. -/
def attachLabels (features : List FeatRow) (bloom : List BloomPeriodRow) :
    List LRow :=
  let stepped := bloom.foldl applyBloomRecord (features.map initRow)
  stepped.map (fun r => if r.label_available then r else { r with is_bloom := none })

/-- The action of one bloom record on one row, with the `continue` guard
evaluated against the whole table `allRows` (the year column is never
modified, so the guard is invariant along the fold): this is the per-row
view of `applyBloomRecord`. -/
def stepRow (allRows : List LRow) (bp : BloomPeriodRow) (r : LRow) : LRow :=
  if allRows.any (fun x => x.year = bp.year) then
    { r with
      label_available := r.label_available || decide (r.year = bp.year),
      is_bloom := if coveredBy bp r.feat.date then some 1 else r.is_bloom }
  else r

/-- The per-row view of the whole `bloom_periods` loop. -/
def stepAll (allRows : List LRow) (bs : List BloomPeriodRow) (r : LRow) : LRow :=
  bs.foldl (fun acc bp => stepRow allRows bp acc) r

/-- `_prepare_features`: `month_sin`/`month_cos` are added later from the
date (always non-null); each of the five data columns that is entirely
null across the table is zero-filled. -/
def prepareFeatures (rows : List LRow) : List LRow :=
  let fill := fun (get : FeatRow → Option Rat) (set : FeatRow → Option Rat → FeatRow)
      (rs : List LRow) =>
    if rs.all (fun r => (get r.feat).isNone)
    then rs.map (fun r => { r with feat := set r.feat (some 0) })
    else rs
  fill (fun f => f.s2_ndvi) (fun f v => { f with s2_ndvi := v })
    (fill (fun f => f.soil_moisture) (fun f v => { f with soil_moisture := v })
      (fill (fun f => f.precip_mm) (fun f v => { f with precip_mm := v })
        (fill (fun f => f.LST_C) (fun f v => { f with LST_C := v })
          (fill (fun f => f.NDVI) (fun f v => { f with NDVI := v }) rows))))

/-- The opaque components of the pipeline: the trigonometric month
features (transcendental, so not rational-valued in the source) and the
fitted gradient-boosting models, `np.sqrt`, and `roc_auc_score`.  No
claim depends on the values these produce, only on the control flow
around them, so they are parameters of the embedding. -/
structure MLContext where
  msin : Nat → Rat
  mcos : Nat → Rat
  hgbClassifier : List Rat → Rat
  hgbRegressor : List Rat → Rat
  sqrt : Rat → Rat
  rocAuc : List Nat → List Rat → Rat

/-- The classifier feature vector of a labeled row, in `feature_columns`
order. -/
def clfFeatures (ctx : MLContext) (r : LRow) : List (Option Rat) :=
  [r.feat.NDVI, r.feat.LST_C, r.feat.precip_mm, r.feat.soil_moisture,
   r.feat.s2_ndvi, some (ctx.msin r.feat.date.month), some (ctx.mcos r.feat.date.month)]

/-- `np.median`: midpoint interpolation on the sorted sample (callers
guard nonemptiness; on the empty list scikit-learn would instead drop the
all-NaN column, a case no run considered here reaches). -/
def npMedian (xs : List Rat) : Rat :=
  let s := List.insertionSort (fun a b : Rat => a ≤ b) xs
  let n := s.length
  if n = 0 then 0
  else if n % 2 = 1 then s.getD (n / 2) 0
  else (s.getD (n / 2 - 1) 0 + s.getD (n / 2) 0) / 2

/-- Column `j` of a row-major matrix, nulls dropped. -/
def columnJ (rows : List (List (Option Rat))) (j : Nat) : List Rat :=
  rows.filterMap (fun row => row.getD j none)

/-- `SimpleImputer(strategy="median").fit`: the per-column medians of the
non-null entries. -/
def imputerFit (rows : List (List (Option Rat))) (ncols : Nat) : List Rat :=
  (List.range ncols).map (fun j => npMedian (columnJ rows j))

/-- `SimpleImputer.transform` on one row: fill each null with the fitted
median of its column. -/
def imputeRow (medians : List Rat) (row : List (Option Rat)) : List Rat :=
  row.enum.map (fun p => p.2.getD (medians.getD p.1 0))

/-- `pd.unique(y)` up to order; only its length, and its sole element in
the single-class case, are ever used. -/
def uniqueLabels (ys : List Nat) : List Nat := ys.dedup

/-- scikit-learn `classes_`: the sorted distinct labels seen in `y`. -/
def sklearnClasses (ys : List Nat) : List Nat :=
  List.insertionSort (fun a b : Nat => a ≤ b) ys.dedup

/-- The fitted classifier of the pipeline: the
`DummyClassifier(strategy="constant")` fallback or the fitted
`HistGradientBoostingClassifier` (opaque, in `MLContext`).  Either one
carries `classes_`. -/
inductive Classifier
  | dummy (constant : Nat) (classes : List Nat)
  | hgb (classes : List Nat)
deriving DecidableEq, Repr

/-- `classes_` of the fitted classifier. -/
def Classifier.nClasses : Classifier → Nat
  | Classifier.dummy _ classes => classes.length
  | Classifier.hgb classes => classes.length

/-- `predict_proba` on one already-imputed feature vector: one column
per element of `classes_`.  The constant dummy puts probability 1 on its
constant class; the gradient-boosting model is binary here (labels are
drawn from {0, 1} and both are present when it is selected), with the
probability of class 1 in the second column. -/
def predictProba (ctx : MLContext) (c : Classifier) (x : List Rat) : List Rat :=
  match c with
  | Classifier.dummy k classes => classes.map (fun cl => if cl = k then (1 : Rat) else 0)
  | Classifier.hgb _ => [1 - ctx.hgbClassifier x, ctx.hgbClassifier x]

/-- The error conditions of `train_bloom_predictor` (`ValueError`,
`FileNotFoundError` from `_load_csv`, and the numpy `IndexError` a
single-column probability matrix produces under `[:, 1]`). -/
inductive TrainError
  | invalidThreshold
  | invalidHorizon
  | missingFeaturesFile
  | missingBloomFile
  | emptyFeatures
  | emptyBloomPeriods
  | noLabels
  | insufficientNdvi
  | noNdviHistory
  | indexError
deriving DecidableEq, Repr

/-- `proba_matrix[:, 1]`: numpy raises `IndexError` when the matrix has
fewer than two columns; the matrix has one column per class. -/
def probaColumn1 (c : Classifier) (matRows : List (List Rat)) :
    Except TrainError (List Rat) :=
  if 2 ≤ c.nClasses then Except.ok (matRows.map (fun row => row.getD 1 0))
  else Except.error TrainError.indexError

/-- `lagged["NDVI"].shift(lag)` at positional row `i`. -/
def ndviLagAt (rows : List LRow) (i lag : Nat) : Option Rat :=
  if lag ≤ i then (rows.get? (i - lag)).bind (fun r => r.feat.NDVI) else none

/-- The indices `reg_train` keeps: rows where all three NDVI lags are
present (`dropna(subset=[NDVI_lag_1, NDVI_lag_2, NDVI_lag_12])`). -/
def regTrainIdx (rows : List LRow) : List Nat :=
  (List.range rows.length).filter (fun i =>
    (ndviLagAt rows i 1).isSome && (ndviLagAt rows i 2).isSome &&
      (ndviLagAt rows i 12).isSome)

/-- The regressor design row at index `i`, in `reg_feature_columns`
order. -/
def regRowAt (ctx : MLContext) (rows : List LRow) (i : Nat) (r : LRow) :
    List (Option Rat) :=
  [some (ctx.msin r.feat.date.month), some (ctx.mcos r.feat.date.month),
   r.feat.precip_mm, r.feat.LST_C, r.feat.soil_moisture, r.feat.s2_ndvi,
   ndviLagAt rows i 1, ndviLagAt rows i 2, ndviLagAt rows i 12]

/-- Gregorian leap-year rule. -/
def isLeapYear (y : Int) : Bool :=
  (y % 4 == 0 && y % 100 != 0) || (y % 400 == 0)

/-- Days in a Gregorian month. -/
def monthLength (y : Int) (m : Nat) : Int :=
  if m = 2 then (if isLeapYear y then 29 else 28)
  else if m = 4 ∨ m = 6 ∨ m = 9 ∨ m = 11 then 30
  else 31

/-- `date + pd.offsets.MonthBegin()` on a first-of-month date: the first
day of the next month. -/
def nextMonthStart (d : PDate) : PDate :=
  if d.month = 12 then PDate.mk (d.year + 1) 1 (d.day + monthLength d.year 12)
  else PDate.mk d.year (d.month + 1) (d.day + monthLength d.year d.month)

/-- `pd.date_range(start, periods=n, freq="MS")`. -/
def monthRange (start : PDate) (n : Nat) : List PDate :=
  match n with
  | 0 => []
  | Nat.succ k => start :: monthRange (nextMonthStart start) k

/-- `_compute_monthly_climatology` for one column at one calendar month:
the mean of the month's non-null values, `none` when the month has no
data (the NaN introduced by `reindex(range(1, 13))`). -/
def climatologyAt (rows : List LRow) (get : FeatRow → Option Rat) (m : Nat) :
    Option Rat :=
  let vals := (rows.filter (fun r => r.feat.date.month = m)).filterMap
    (fun r => get r.feat)
  if vals.isEmpty then none else some (mean vals)

/-- `global_means[col] = float(df[col].dropna().mean())` (after
`_prepare_features` every column has at least one non-null value on a
nonempty table). -/
def globalMean (rows : List LRow) (get : FeatRow → Option Rat) : Rat :=
  mean (rows.filterMap (fun r => get r.feat))

/-- The four climatology-driven exogenous values for one calendar month,
with the global-mean fallback for months without data
(`if np.isnan(value): value = global_means[col]`). -/
structure ClimVals where
  precip_mm : Rat
  LST_C : Rat
  soil_moisture : Rat
  s2_ndvi : Rat
deriving DecidableEq, Repr

/-- The climatology lookup for one month. -/
def climValsFor (rows : List LRow) (m : Nat) : ClimVals :=
  ClimVals.mk
    ((climatologyAt rows (fun f => f.precip_mm) m).getD (globalMean rows (fun f => f.precip_mm)))
    ((climatologyAt rows (fun f => f.LST_C) m).getD (globalMean rows (fun f => f.LST_C)))
    ((climatologyAt rows (fun f => f.soil_moisture) m).getD (globalMean rows (fun f => f.soil_moisture)))
    ((climatologyAt rows (fun f => f.s2_ndvi) m).getD (globalMean rows (fun f => f.s2_ndvi)))

/-- `_add_lag_features(values, lags)` for one lag: Python `values[-lag]`
when `len(values) >= lag`, else `values[0]` when nonempty, else `0.0`.
The source only calls this with the positive lags `{1, 2, 12}`
(`ndvi_lags`), so `values[-lag]` is index `length - lag`. -/
def addLagFeature (values : List Rat) (lag : Nat) : Rat :=
  if 1 ≤ lag ∧ lag ≤ values.length then values.getD (values.length - lag) 0
  else values.headD 0

/-- One element of `forecast_records` (the NDVI forecast series, with
the ±1.96·residual_std band, each value clamped to [0, 1]). -/
structure ForecastRecord where
  date : PDate
  ndvi : Rat
  lower : Rat
  upper : Rat
deriving DecidableEq, Repr

/-- One element of `forecast_rows` (a future row of the combined table);
`label_available = False`, `is_bloom = pd.NA` and `status = "forecast"`
are constants on these rows and added at assembly. -/
structure FutureRow where
  date : PDate
  month : Nat
  month_sin : Rat
  month_cos : Rat
  precip_mm : Rat
  LST_C : Rat
  soil_moisture : Rat
  s2_ndvi : Rat
  NDVI_lag_1 : Rat
  NDVI_lag_2 : Rat
  NDVI_lag_12 : Rat
  NDVI : Rat
deriving DecidableEq, Repr

/-- The recursive projection loop (`for date in future_dates`): build the
month's features from climatology and the running NDVI history, predict,
clamp with `np.clip(pred, 0.0, 1.0)`, append the prediction to the
history, and emit the future row and the forecast record with its
confidence band (`pred ± 1.96·residual_std`, clamped; when
`residual_std == 0` is falsy both bounds equal the prediction). -/
def projectFuture (ctx : MLContext) (regMedians : List Rat)
    (climOf : Nat → ClimVals) (residualStd : Rat) :
    List PDate → List Rat → List FutureRow × List ForecastRecord × List Rat
  | [], history => ([], [], history)
  | date :: rest, history =>
      let m := date.month
      let ms := ctx.msin m
      let mc := ctx.mcos m
      let cv := climOf m
      let lag1 := addLagFeature history 1
      let lag2 := addLagFeature history 2
      let lag12 := addLagFeature history 12
      let regRow : List Rat := imputeRow regMedians
        [some ms, some mc, some cv.precip_mm, some cv.LST_C,
         some cv.soil_moisture, some cv.s2_ndvi, some lag1, some lag2, some lag12]
      let raw := ctx.hgbRegressor regRow
      let pred := min 1 (max 0 raw)
      let frow := FutureRow.mk date m ms mc cv.precip_mm cv.LST_C
        cv.soil_moisture cv.s2_ndvi lag1 lag2 lag12 pred
      let frec := ForecastRecord.mk date pred
        (if residualStd = 0 then pred else max 0 (pred - 49/25 * residualStd))
        (if residualStd = 0 then pred else min 1 (pred + 49/25 * residualStd))
      let next := projectFuture ctx regMedians climOf residualStd rest (history ++ [pred])
      (frow :: next.1, frec :: next.2.1, next.2.2)

/-- `status` of a combined-table row: `np.where(label_available,
"historical", status.fillna("forecast"))`. -/
inductive RowStatus
  | historical
  | forecast
deriving DecidableEq, Repr

/-- A row of the combined output table (the fields the contract is
about). -/
structure CombinedRow where
  date : PDate
  NDVI : Option Rat
  label_available : Bool
  is_bloom : Option Nat
  status : RowStatus
  probability : Rat
  predicted_label : Nat
deriving DecidableEq, Repr

/-- The reported metrics (`None` = `none`). -/
structure Metrics where
  accuracy : Option Rat
  roc_auc : Option Rat
  ndvi_rmse : Rat
  ndvi_mae : Rat
deriving DecidableEq, Repr

/-- A row of the NDVI historical+forecast series. -/
structure NdviSeriesRow where
  date : PDate
  ndvi : Option Rat
  lower : Option Rat
  upper : Option Rat
  source : RowStatus
deriving DecidableEq, Repr

/-- The `ndvi_series.sort_values("date")` ordering. -/
def nsrLe (a b : NdviSeriesRow) : Prop := a.date.day ≤ b.date.day

instance : DecidableRel nsrLe :=
  fun a b => inferInstanceAs (Decidable (a.date.day ≤ b.date.day))

/-- The recorded model name. -/
inductive ModelName
  | dummyClassifier
  | histGradientBoostingClassifier
deriving DecidableEq, Repr

/-- The result bundle of `train_bloom_predictor` (the fields the claims
are about). -/
structure TrainResult where
  modelName : ModelName
  combined : List CombinedRow
  metrics : Metrics
  ndviForecast : List NdviSeriesRow
  trainingSamples : Nat
  positiveRate : Option Rat
  horizonMonths : Nat
deriving DecidableEq, Repr

/-- `train_bloom_predictor`.  The CSV loads are inputs (`none` = the file
is absent, raising `FileNotFoundError` inside `_load_csv`); parameter
validation happens before either load, mirroring the source order.  In
`reg_y` the source keeps `NDVI` as a float that is non-NaN in every run
considered here (scikit-learn rejects NaN targets), embedded with
`getD 0`. -/
def trainBloomPredictor (ctx : MLContext) (probabilityThreshold : Rat)
    (forecastYears : Int) (featuresCsv : Option (List FeatRow))
    (bloomPeriodsCsv : Option (List BloomPeriodRow)) :
    Except TrainError TrainResult :=
  if ¬(0 < probabilityThreshold ∧ probabilityThreshold < 1) then
    Except.error TrainError.invalidThreshold
  else if forecastYears ≤ 0 then
    Except.error TrainError.invalidHorizon
  else
    match featuresCsv with
    | none => Except.error TrainError.missingFeaturesFile
    | some features =>
      if features.isEmpty then Except.error TrainError.emptyFeatures
      else
        match bloomPeriodsCsv with
        | none => Except.error TrainError.missingBloomFile
        | some bloomPeriods =>
          if bloomPeriods.isEmpty then Except.error TrainError.emptyBloomPeriods
          else
            let df := prepareFeatures (attachLabels features bloomPeriods)
            let trainDf := df.filter (fun r => r.label_available)
            if trainDf.isEmpty then Except.error TrainError.noLabels
            else
              let yTrain := trainDf.map (fun r => (r.is_bloom).getD 0)
              let uniq := uniqueLabels yTrain
              let classifier :=
                if uniq.length < 2 then
                  Classifier.dummy (uniq.headD 0) (sklearnClasses yTrain)
                else Classifier.hgb (sklearnClasses yTrain)
              let xTrain := trainDf.map (clfFeatures ctx)
              let clfMedians := imputerFit xTrain 7
              let regIdx := regTrainIdx df
              if regIdx.isEmpty then Except.error TrainError.insufficientNdvi
              else
                let regX := regIdx.filterMap (fun i =>
                  (df.get? i).map (fun r => regRowAt ctx df i r))
                let regY := regIdx.filterMap (fun i =>
                  (df.get? i).map (fun r => (r.feat.NDVI).getD 0))
                let regMedians := imputerFit regX 9
                let regPred := regX.map (fun row => ctx.hgbRegressor (imputeRow regMedians row))
                let residuals := (regY.zip regPred).map (fun p => p.1 - p.2)
                let ndviRmse := ctx.sqrt (mean (residuals.map (fun x => x ^ 2)))
                let ndviMae := mean (residuals.map (fun x => |x|))
                let residualStd :=
                  if 1 < regY.length then ctx.sqrt (sampleVar residuals) else ndviRmse
                match maxDay (df.map (fun r => r.feat.date)) with
                | none => Except.error TrainError.noNdviHistory
                | some lastDate =>
                  let horizonMonths := (forecastYears * 12).toNat
                  let ndviMedian := npMedian (df.filterMap (fun r => r.feat.NDVI))
                  let hist0 := df.map (fun r => (r.feat.NDVI).getD ndviMedian)
                  if hist0.isEmpty then Except.error TrainError.noNdviHistory
                  else
                    let history :=
                      if hist0.length < 12 then
                        (List.replicate (12 - hist0.length) (hist0.headD 0)) ++ hist0
                      else hist0
                    let futureDates := monthRange (nextMonthStart lastDate) horizonMonths
                    let proj := projectFuture ctx regMedians (climValsFor df)
                      residualStd futureDates history
                    let futureRows := proj.1
                    let forecastRecords := proj.2.1
                    let combinedFeat : List (List (Option Rat)) :=
                      df.map (clfFeatures ctx) ++ futureRows.map (fun f =>
                        [some f.NDVI, some f.LST_C, some f.precip_mm,
                         some f.soil_moisture, some f.s2_ndvi,
                         some f.month_sin, some f.month_cos])
                    let probaMat := combinedFeat.map (fun row =>
                      predictProba ctx classifier (imputeRow clfMedians row))
                    match probaColumn1 classifier probaMat with
                    | Except.error e => Except.error e
                    | Except.ok proba =>
                      let preRows :=
                        df.map (fun r => CombinedRow.mk r.feat.date r.feat.NDVI
                          r.label_available r.is_bloom
                          (if r.label_available then RowStatus.historical
                           else RowStatus.forecast) 0 0)
                        ++ futureRows.map (fun f => CombinedRow.mk f.date
                          (some f.NDVI) false none RowStatus.forecast 0 0)
                      let combinedRows := (preRows.zip proba).map (fun p =>
                        { p.1 with
                          probability := p.2,
                          predicted_label :=
                            if probabilityThreshold ≤ p.2 then 1 else 0 })
                      let trainMat := xTrain.map (fun row =>
                        predictProba ctx classifier (imputeRow clfMedians row))
                      let accRoc : Option Rat × Option Rat :=
                        match probaColumn1 classifier trainMat with
                        | Except.error _ => (none, none)
                        | Except.ok probaTrain =>
                            let yPred := probaTrain.map (fun p =>
                              if probabilityThreshold ≤ p then (1 : Nat) else 0)
                            let acc := mean ((yTrain.zip yPred).map (fun p =>
                              if p.1 = p.2 then 1 else 0))
                            (some acc,
                             if 2 ≤ uniq.length then some (ctx.rocAuc yTrain probaTrain)
                             else none)
                      let metrics := Metrics.mk accRoc.1 accRoc.2 ndviRmse ndviMae
                      let ndviHistRows := df.map (fun r => NdviSeriesRow.mk
                        r.feat.date r.feat.NDVI none none RowStatus.historical)
                      let ndviForeRows := forecastRecords.map (fun fr =>
                        NdviSeriesRow.mk fr.date (some fr.ndvi) (some fr.lower)
                          (some fr.upper) RowStatus.forecast)
                      let ndviSeries := List.insertionSort nsrLe
                        (ndviHistRows ++ ndviForeRows)
                      Except.ok (TrainResult.mk
                        (if uniq.length < 2 then ModelName.dummyClassifier
                         else ModelName.histGradientBoostingClassifier)
                        combinedRows metrics ndviSeries trainDf.length
                        (some (mean (yTrain.map (fun n => (n : Rat)))))
                        horizonMonths)

/-! ## Concrete instances used by counterexamples and witnesses -/

/-- A two-year NDVI series: 2020 holds low values only, 2021 high values
only, so the global 75th-percentile threshold (0.9) is met by no 2020
observation. -/
def seriesLowHigh : List NdviRow :=
  [NdviRow.mk (PDate.mk 2020 1 100) (some (1/10)),
   NdviRow.mk (PDate.mk 2020 2 130) (some (1/10)),
   NdviRow.mk (PDate.mk 2021 1 465) (some (9/10)),
   NdviRow.mk (PDate.mk 2021 2 495) (some (9/10))]

/-- A master table with a missing calendar month (2015-03 absent):
month indices 24180, 24181, 24183 are 2015-01, 2015-02, 2015-04. -/
def corrGapTable : List CRow :=
  [CRow.mk 24180 (some (1/10)) (some 5),
   CRow.mk 24181 (some (2/10)) (some 6),
   CRow.mk 24183 (some (3/10)) (some 7)]

/-- A gap-free three-month master table (2015-01 … 2015-03). -/
def corrConsecTable : List CRow :=
  [CRow.mk 24180 (some (1/10)) (some 5),
   CRow.mk 24181 (some (2/10)) (some 6),
   CRow.mk 24182 (some (3/10)) (some 7)]

/-- A master table with constant (zero-variance) precipitation. -/
def corrConstPrecip : List CRow :=
  [CRow.mk 24180 (some (1/10)) (some 5),
   CRow.mk 24181 (some (2/10)) (some 5),
   CRow.mk 24182 (some (3/10)) (some 5)]

/-- A sample instantiation of the opaque components. -/
def sampleCtx : MLContext :=
  MLContext.mk (fun _ => 0) (fun _ => 0) (fun _ => 1/2) (fun _ => 1/2)
    (fun _ => 1/10) (fun _ _ => 0)

/-- An instantiation whose regressor always produces a huge raw value. -/
def hugeRegCtx : MLContext :=
  MLContext.mk (fun _ => 0) (fun _ => 0) (fun _ => 1/2) (fun _ => 1000)
    (fun _ => 1/10) (fun _ _ => 0)

/-- Fourteen fully-populated monthly feature rows
(2020-01 … 2021-02, absolute day numbers from 2020-01-01 = day 0). -/
def singleClassFeatures : List FeatRow :=
  [FeatRow.mk (PDate.mk 2020 1 0) (some (1/10)) (some 20) (some 5) (some (3/10)) (some (1/10)),
   FeatRow.mk (PDate.mk 2020 2 31) (some (1/10)) (some 20) (some 5) (some (3/10)) (some (1/10)),
   FeatRow.mk (PDate.mk 2020 3 60) (some (2/10)) (some 21) (some 4) (some (3/10)) (some (2/10)),
   FeatRow.mk (PDate.mk 2020 4 91) (some (2/10)) (some 21) (some 4) (some (3/10)) (some (2/10)),
   FeatRow.mk (PDate.mk 2020 5 121) (some (3/10)) (some 22) (some 3) (some (3/10)) (some (3/10)),
   FeatRow.mk (PDate.mk 2020 6 152) (some (3/10)) (some 22) (some 3) (some (3/10)) (some (3/10)),
   FeatRow.mk (PDate.mk 2020 7 182) (some (4/10)) (some 23) (some 2) (some (3/10)) (some (4/10)),
   FeatRow.mk (PDate.mk 2020 8 213) (some (4/10)) (some 23) (some 2) (some (3/10)) (some (4/10)),
   FeatRow.mk (PDate.mk 2020 9 244) (some (3/10)) (some 22) (some 3) (some (3/10)) (some (3/10)),
   FeatRow.mk (PDate.mk 2020 10 274) (some (3/10)) (some 22) (some 3) (some (3/10)) (some (3/10)),
   FeatRow.mk (PDate.mk 2020 11 305) (some (2/10)) (some 21) (some 4) (some (3/10)) (some (2/10)),
   FeatRow.mk (PDate.mk 2020 12 335) (some (2/10)) (some 21) (some 4) (some (3/10)) (some (2/10)),
   FeatRow.mk (PDate.mk 2021 1 366) (some (1/10)) (some 20) (some 5) (some (3/10)) (some (1/10)),
   FeatRow.mk (PDate.mk 2021 2 397) (some (1/10)) (some 20) (some 5) (some (3/10)) (some (1/10))]

/-- One analysed year (2020) whose window covers none of the monthly
dates, so every labeled row carries the single class `0`. -/
def singleClassBloom : List BloomPeriodRow :=
  [BloomPeriodRow.mk 2020 (some (PDate.mk 2026 1 5000)) (some (PDate.mk 2026 1 5000))]

/-- Three monthly feature rows over two years (2020, 2021). -/
def labelFeatures : List FeatRow :=
  [FeatRow.mk (PDate.mk 2020 6 152) (some (8/10)) none none none none,
   FeatRow.mk (PDate.mk 2020 7 182) (some (2/10)) none none none none,
   FeatRow.mk (PDate.mk 2021 3 425) (some (5/10)) none none none none]

/-- One bloom record for 2020 whose window covers exactly the June
row. -/
def labelBloom : List BloomPeriodRow :=
  [BloomPeriodRow.mk 2020 (some (PDate.mk 2020 6 152)) (some (PDate.mk 2020 6 160))]

/-! ## Helper lemmas -/

theorem foldlMin_mem (ds : List PDate) (d : PDate) :
    ds.foldl (fun a b => if b.day < a.day then b else a) d = d ∨
      ds.foldl (fun a b => if b.day < a.day then b else a) d ∈ ds := by
  induction ds generalizing d with
  | nil => exact Or.inl rfl
  | cons x xs ih =>
      simp only [List.foldl_cons]
      rcases ih (if x.day < d.day then x else d) with h | h
      · rw [h]
        by_cases hx : x.day < d.day
        · rw [if_pos hx]; exact Or.inr (List.mem_cons_self x xs)
        · rw [if_neg hx]; exact Or.inl rfl
      · exact Or.inr (List.mem_cons_of_mem x h)

theorem foldlMin_le (ds : List PDate) (d : PDate) :
    (ds.foldl (fun a b => if b.day < a.day then b else a) d).day ≤ d.day ∧
      ∀ x ∈ ds, (ds.foldl (fun a b => if b.day < a.day then b else a) d).day ≤ x.day := by
  induction ds generalizing d with
  | nil => simp
  | cons x xs ih =>
      simp only [List.foldl_cons]
      obtain ⟨h1, h2⟩ := ih (if x.day < d.day then x else d)
      refine ⟨le_trans h1 ?_, ?_⟩
      · by_cases hx : x.day < d.day
        · rw [if_pos hx]; omega
        · rw [if_neg hx]
      · intro z hz
        rcases List.mem_cons.mp hz with rfl | hz
        · refine le_trans h1 ?_
          by_cases hx : z.day < d.day
          · rw [if_pos hx]
          · rw [if_neg hx]; omega
        · exact h2 z hz

theorem foldlMax_mem (ds : List PDate) (d : PDate) :
    ds.foldl (fun a b => if a.day < b.day then b else a) d = d ∨
      ds.foldl (fun a b => if a.day < b.day then b else a) d ∈ ds := by
  induction ds generalizing d with
  | nil => exact Or.inl rfl
  | cons x xs ih =>
      simp only [List.foldl_cons]
      rcases ih (if d.day < x.day then x else d) with h | h
      · rw [h]
        by_cases hx : d.day < x.day
        · rw [if_pos hx]; exact Or.inr (List.mem_cons_self x xs)
        · rw [if_neg hx]; exact Or.inl rfl
      · exact Or.inr (List.mem_cons_of_mem x h)

theorem foldlMax_ge (ds : List PDate) (d : PDate) :
    d.day ≤ (ds.foldl (fun a b => if a.day < b.day then b else a) d).day ∧
      ∀ x ∈ ds, x.day ≤ (ds.foldl (fun a b => if a.day < b.day then b else a) d).day := by
  induction ds generalizing d with
  | nil => simp
  | cons x xs ih =>
      simp only [List.foldl_cons]
      obtain ⟨h1, h2⟩ := ih (if d.day < x.day then x else d)
      refine ⟨le_trans ?_ h1, ?_⟩
      · by_cases hx : d.day < x.day
        · rw [if_pos hx]; omega
        · rw [if_neg hx]
      · intro z hz
        rcases List.mem_cons.mp hz with rfl | hz
        · refine le_trans ?_ h1
          by_cases hx : d.day < z.day
          · rw [if_pos hx]
          · rw [if_neg hx]; omega
        · exact h2 z hz

theorem minDay_spec {l : List PDate} {d : PDate} (h : minDay l = some d) :
    d ∈ l ∧ ∀ x ∈ l, d.day ≤ x.day := by
  cases l with
  | nil => simp [minDay] at h
  | cons a as =>
      simp only [minDay, Option.some.injEq] at h
      subst h
      refine ⟨?_, ?_⟩
      · rcases foldlMin_mem as a with h | h
        · rw [h]; exact List.mem_cons_self a as
        · exact List.mem_cons_of_mem a h
      · intro x hx
        rcases List.mem_cons.mp hx with rfl | hx
        · exact (foldlMin_le as x).1
        · exact (foldlMin_le as a).2 x hx

theorem maxDay_spec {l : List PDate} {d : PDate} (h : maxDay l = some d) :
    d ∈ l ∧ ∀ x ∈ l, x.day ≤ d.day := by
  cases l with
  | nil => simp [maxDay] at h
  | cons a as =>
      simp only [maxDay, Option.some.injEq] at h
      subst h
      refine ⟨?_, ?_⟩
      · rcases foldlMax_mem as a with h | h
        · rw [h]; exact List.mem_cons_self a as
        · exact List.mem_cons_of_mem a h
      · intro x hx
        rcases List.mem_cons.mp hx with rfl | hx
        · exact (foldlMax_ge as x).1
        · exact (foldlMax_ge as a).2 x hx

theorem detectBloom_some {g : List CleanRow} {thr : Rat} {p : PDate × PDate}
    (h : detectBloom g thr = some p) :
    (∃ r ∈ g, thr ≤ r.ndvi ∧ r.date = p.1) ∧
    (∃ r ∈ g, thr ≤ r.ndvi ∧ r.date = p.2) ∧
    (∀ r ∈ g, thr ≤ r.ndvi → p.1.day ≤ r.date.day ∧ r.date.day ≤ p.2.day) := by
  simp only [detectBloom] at h
  cases hmin : minDay ((g.filter (fun r => thr ≤ r.ndvi)).map (fun r => r.date)) with
  | none => rw [hmin] at h; exact absurd h (by simp)
  | some a =>
      cases hmax : maxDay ((g.filter (fun r => thr ≤ r.ndvi)).map (fun r => r.date)) with
      | none => rw [hmin, hmax] at h; exact absurd h (by simp)
      | some b =>
          rw [hmin, hmax] at h
          simp only [Option.some.injEq] at h
          obtain ⟨hamem, hale⟩ := minDay_spec hmin
          obtain ⟨hbmem, hbge⟩ := maxDay_spec hmax
          obtain ⟨ra, hra, hrad⟩ := List.mem_map.mp hamem
          obtain ⟨rb, hrb, hrbd⟩ := List.mem_map.mp hbmem
          have hra2 := List.mem_filter.mp hra
          have hrb2 := List.mem_filter.mp hrb
          subst h
          refine ⟨⟨ra, hra2.1, by simpa using hra2.2, hrad⟩,
                  ⟨rb, hrb2.1, by simpa using hrb2.2, hrbd⟩, ?_⟩
          intro r hr hthr
          have hmem : r.date ∈ (g.filter (fun r => thr ≤ r.ndvi)).map (fun r => r.date) :=
            List.mem_map.mpr ⟨r, List.mem_filter.mpr ⟨hr, by simpa using hthr⟩, rfl⟩
          exact ⟨hale _ hmem, hbge _ hmem⟩

theorem detectBloom_none {g : List CleanRow} {thr : Rat}
    (h : ∀ r ∈ g, r.ndvi < thr) : detectBloom g thr = none := by
  have hfil : g.filter (fun r => thr ≤ r.ndvi) = [] :=
    List.filter_eq_nil_iff.mpr (fun r hr => by simpa using not_le.mpr (h r hr))
  simp [detectBloom, hfil, minDay]

theorem bloomRowsAt_mem {df : List CleanRow} {thrOf : Int → Rat} {rec : BloomRecord}
    (h : rec ∈ bloomRowsAt df thrOf) :
    rec.year ∈ yearsOf df ∧
    detectBloom (yearGroup df rec.year) (thrOf rec.year) =
      some (rec.bloom_start, rec.bloom_end) ∧
    rec.duration_days = rec.bloom_end.day - rec.bloom_start.day := by
  unfold bloomRowsAt at h
  obtain ⟨y, hy, hsome⟩ := List.mem_filterMap.mp h
  obtain ⟨p, hp, hrec⟩ := Option.map_eq_some'.mp hsome
  subst hrec
  exact ⟨hy, by simpa using hp, rfl⟩

theorem analyzeBloomRows_eq (mode : Mode) (input : List NdviRow) :
    (analyzeBloomSeason mode input).1 =
      bloomRowsAt (cleanSeries input) (thresholdFor mode (cleanSeries input)) := by
  cases mode <;> rfl

theorem sum_map_ite_eq_countP (l : List Int) (p : Int → Bool) :
    (l.map (fun y => if p y then (1 : Nat) else 0)).sum = l.countP p := by
  induction l with
  | nil => rfl
  | cons a l ih =>
      simp only [List.map_cons, List.sum_cons, List.countP_cons, ih]
      cases h : p a <;> simp [h, Nat.add_comm]

/-! ## Claim C1 -/

/-- C1 counterexample: on `seriesLowHigh`, the year 2020 has
observations, none of them meets the global threshold, and the output
table of `analyze_bloom_season` contains no record at all for 2020 (so
in particular no record with null window and zero duration). -/
theorem bloom_null_year_record_refuted :
    (∃ r ∈ cleanSeries seriesLowHigh, r.date.year = 2020) ∧
    (∀ r ∈ cleanSeries seriesLowHigh, r.date.year = 2020 →
      r.ndvi < thresholdFor Mode.global (cleanSeries seriesLowHigh) 2020) ∧
    ¬ ∃ rec ∈ (analyzeBloomSeason Mode.global seriesLowHigh).1, rec.year = 2020 := by
  with_unfolding_all decide

/-- C1 (amended): in every detection mode, a calendar year in which no
observation meets that mode's threshold yields no bloom-window record at
all — the year is omitted from the output table (and detection, being a
total function, raises no error). -/
theorem bloom_year_without_hits_is_omitted (mode : Mode) (input : List NdviRow)
    (y : Int)
    (hbelow : ∀ r ∈ cleanSeries input, r.date.year = y →
      r.ndvi < thresholdFor mode (cleanSeries input) y) :
    ∀ rec ∈ (analyzeBloomSeason mode input).1, rec.year ≠ y := by
  intro rec hrec hy
  rw [analyzeBloomRows_eq] at hrec
  obtain ⟨-, hdet, -⟩ := bloomRowsAt_mem hrec
  rw [hy] at hdet
  have hnone : detectBloom (yearGroup (cleanSeries input) y)
      (thresholdFor mode (cleanSeries input) y) = none := by
    refine detectBloom_none (fun r hr => ?_)
    have hr2 := List.mem_filter.mp hr
    exact hbelow r hr2.1 (by simpa using hr2.2)
  rw [hnone] at hdet
  exact Option.noConfusion hdet

/-- Witness for C1: the amended theorem applied to `seriesLowHigh` at
year 2020 and at the single record the analysis produces (the 2021
one). -/
theorem bloom_year_without_hits_is_omitted_witness :
    (∀ r ∈ cleanSeries seriesLowHigh, r.date.year = 2020 →
      r.ndvi < thresholdFor Mode.global (cleanSeries seriesLowHigh) 2020) ∧
    (BloomRecord.mk 2021 (PDate.mk 2021 1 465) (PDate.mk 2021 2 495) 30).year ≠ 2020 :=
  ⟨by with_unfolding_all decide,
   bloom_year_without_hits_is_omitted Mode.global seriesLowHigh 2020
     (by with_unfolding_all decide) _ (by with_unfolding_all decide)⟩

/-! ## Claim C4 -/

/-- C4: in global mode the threshold is the 75th percentile of the whole
cleaned series, the same value for every year; every produced record's
window runs from the earliest to the latest date of its year whose NDVI
meets that threshold, and the duration is the day difference of the two
dates. -/
theorem global_bloom_window_spec (input : List NdviRow) (rec : BloomRecord)
    (hrec : rec ∈ (analyzeBloomSeason Mode.global input).1) :
    (∀ y : Int, thresholdFor Mode.global (cleanSeries input) y =
      quantileLinear (3/4) ((cleanSeries input).map (fun r => r.ndvi))) ∧
    (∃ r ∈ yearGroup (cleanSeries input) rec.year,
      quantileLinear (3/4) ((cleanSeries input).map (fun r => r.ndvi)) ≤ r.ndvi ∧
      r.date = rec.bloom_start) ∧
    (∃ r ∈ yearGroup (cleanSeries input) rec.year,
      quantileLinear (3/4) ((cleanSeries input).map (fun r => r.ndvi)) ≤ r.ndvi ∧
      r.date = rec.bloom_end) ∧
    (∀ r ∈ yearGroup (cleanSeries input) rec.year,
      quantileLinear (3/4) ((cleanSeries input).map (fun r => r.ndvi)) ≤ r.ndvi →
      rec.bloom_start.day ≤ r.date.day ∧ r.date.day ≤ rec.bloom_end.day) ∧
    rec.duration_days = rec.bloom_end.day - rec.bloom_start.day := by
  rw [analyzeBloomRows_eq] at hrec
  obtain ⟨-, hdet, hdur⟩ := bloomRowsAt_mem hrec
  obtain ⟨h2, h3, h4⟩ := detectBloom_some hdet
  exact ⟨fun y => rfl, h2, h3, h4, hdur⟩

/-- Witness for C4: the theorem applied to the record `seriesLowHigh`
produces for 2021. -/
theorem global_bloom_window_spec_witness :
    (BloomRecord.mk 2021 (PDate.mk 2021 1 465) (PDate.mk 2021 2 495) 30 ∈
      (analyzeBloomSeason Mode.global seriesLowHigh).1) ∧
    (BloomRecord.mk 2021 (PDate.mk 2021 1 465) (PDate.mk 2021 2 495) 30).duration_days =
      (BloomRecord.mk 2021 (PDate.mk 2021 1 465) (PDate.mk 2021 2 495) 30).bloom_end.day -
      (BloomRecord.mk 2021 (PDate.mk 2021 1 465) (PDate.mk 2021 2 495) 30).bloom_start.day :=
  ⟨by with_unfolding_all decide,
   (global_bloom_window_spec seriesLowHigh _ (by with_unfolding_all decide)).2.2.2.2⟩

/-! ## Claim C8 -/

/-- C8: global-mode detection also returns the sensitivity table: exactly
three rows, one per quantile 0.65 / 0.75 / 0.80 of the full series, each
carrying the quantile, the number of years whose bloom window at that
threshold is non-null, and the total number of years; annual mode
returns no sensitivity table. -/
theorem sensitivity_table_spec (input : List NdviRow) :
    ((analyzeBloomSeason Mode.global input).2 =
      some ([((13 : Rat)/20), 3/4, 4/5].map (fun q =>
        SensRow.mk q
          ((yearsOf (cleanSeries input)).countP (fun y =>
            (detectBloom (yearGroup (cleanSeries input) y)
              (quantileLinear q ((cleanSeries input).map (fun r => r.ndvi)))).isSome))
          (yearsOf (cleanSeries input)).length))) ∧
    (∀ s, (analyzeBloomSeason Mode.global input).2 = some s → s.length = 3) ∧
    (analyzeBloomSeason Mode.annual input).2 = none := by
  refine ⟨?_, ?_, rfl⟩
  · simp only [analyzeBloomSeason]
    refine congrArg some (List.map_congr_left (fun q hq => ?_))
    rw [sum_map_ite_eq_countP, List.length_map]
  · intro s hs
    simp only [analyzeBloomSeason, Option.some.injEq] at hs
    rw [← hs]
    simp

/-- Witness for C8: on `seriesLowHigh` the sensitivity table is the
concrete three-row table (one year of two has a bloom window at each of
the three quantile thresholds), and annual mode yields none. -/
theorem sensitivity_table_spec_witness :
    ([SensRow.mk (13/20) 1 2, SensRow.mk (3/4) 1 2, SensRow.mk (4/5) 1 2] : List SensRow).length = 3 ∧
    (analyzeBloomSeason Mode.annual seriesLowHigh).2 = none :=
  ⟨(sensitivity_table_spec seriesLowHigh).2.1 _ (by with_unfolding_all rfl),
   (sensitivity_table_spec seriesLowHigh).2.2⟩

/-! ## Correlation helper lemmas -/

theorem correlate_get {t : List CRow} {maxLag lag : Nat} (h : lag ≤ maxLag) :
    (correlateRainNdvi t maxLag).get? lag = some (mkCorrRecord (corrBase t) lag) := by
  unfold correlateRainNdvi
  rw [List.get?_map, List.get?_range (Nat.lt_succ_of_le h)]
  rfl

theorem get?_date_add {l : List BaseRow}
    (hc : List.Chain' (fun a b => b.date = a.date + 1) l) (i k : Nat) :
    ∀ (x y : BaseRow), l.get? i = some x → l.get? (i + k) = some y →
      y.date = x.date + (k : Int) := by
  induction k generalizing i with
  | zero =>
      intro x y hx hy
      rw [Nat.add_zero, hx, Option.some.injEq] at hy
      rw [hy]
      simp
  | succ k ih =>
      intro x y hx hy
      obtain ⟨hylen, hyget⟩ := List.get?_eq_some.mp hy
      have hzlt : i + k < l.length := by omega
      have hz2 : l.get? (i + k) = some (l.get ⟨i + k, hzlt⟩) := List.get?_eq_get hzlt
      have hadj := List.chain'_iff_get.mp hc (i + k) (by omega)
      have hbase := ih i x (l.get ⟨i + k, hzlt⟩) hx hz2
      have hyz : y = l.get ⟨i + k + 1, hylen⟩ := hyget.symm
      rw [hyz, hadj, hbase]
      push_cast
      ring

/-! ## Claim C3 -/

/-- C3 counterexample: on the master table `corrGapTable` (calendar month
2015-03 missing), the lag-1 pair for 2015-04 (month index 24183) uses the
precipitation of 2015-02 (month index 24181), two calendar months
earlier, so the pairing is not "precipitation from exactly one calendar
month before". -/
theorem lag_pairs_calendar_refuted :
    pairsAtLag (corrBase corrGapTable) 1 =
      [(BaseRow.mk 24181 (2/10) 6, BaseRow.mk 24180 (1/10) 5),
       (BaseRow.mk 24183 (3/10) 7, BaseRow.mk 24181 (2/10) 6)] ∧
    ¬ (∀ pr ∈ pairsAtLag (corrBase corrGapTable) 1,
        pr.2.date = pr.1.date - (1 : Int)) := by
  have hp : pairsAtLag (corrBase corrGapTable) 1 =
      [(BaseRow.mk 24181 (2/10) 6, BaseRow.mk 24180 (1/10) 5),
       (BaseRow.mk 24183 (3/10) 7, BaseRow.mk 24181 (2/10) 6)] := by
    with_unfolding_all rfl
  refine ⟨hp, fun h => ?_⟩
  have h2 := h (BaseRow.mk 24183 (3/10) 7, BaseRow.mk 24181 (2/10) 6)
    (by rw [hp]; exact List.mem_cons_of_mem _ (List.mem_cons_self _ _))
  have h3 : (24181 : Int) = 24183 - 1 := h2
  omega

/-- C3 (amended): for every lag up to `max_lag`, the lag's record is
computed afresh from the full cleaned base table (independent of the
other lags), and its pairs align each row's vegetation index with the
precipitation of the row `lag` positions earlier in that base — which is
precipitation from exactly `lag` calendar months before whenever the base
rows are consecutive calendar months. -/
theorem lag_pairs_positional (t : List CRow) (maxLag lag : Nat) (hlag : lag ≤ maxLag) :
    ((correlateRainNdvi t maxLag).get? lag = some (mkCorrRecord (corrBase t) lag)) ∧
    (List.Chain' (fun a b => b.date = a.date + 1) (corrBase t) →
      ∀ pr ∈ pairsAtLag (corrBase t) lag, pr.2.date = pr.1.date - (lag : Int)) := by
  refine ⟨correlate_get hlag, fun hc pr hpr => ?_⟩
  obtain ⟨i, hi⟩ := List.mem_iff_get?.mp hpr
  have h2 := (List.get?_zip_eq_some _ _ _ _).mp hi
  rw [List.get?_drop] at h2
  have h3 : (corrBase t).get? (i + lag) = some pr.1 := by
    rw [Nat.add_comm]; exact h2.1
  have h4 := get?_date_add hc i lag pr.2 pr.1 h2.2 h3
  omega

/-- Witness for C3: the amended theorem applied to the gap-free table
`corrConsecTable` at lag 1, and to its first lag-1 pair. -/
theorem lag_pairs_positional_witness :
    ((correlateRainNdvi corrConsecTable 2).get? 1 =
      some (mkCorrRecord (corrBase corrConsecTable) 1)) ∧
    ((BaseRow.mk 24181 (2/10) 6, BaseRow.mk 24180 (1/10) 5).2.date =
      (BaseRow.mk 24181 (2/10) 6, BaseRow.mk 24180 (1/10) 5).1.date - (1 : Int)) := by
  have hb : corrBase corrConsecTable =
      [BaseRow.mk 24180 (1/10) 5, BaseRow.mk 24181 (2/10) 6,
       BaseRow.mk 24182 (3/10) 7] := by
    with_unfolding_all rfl
  have hchain : List.Chain' (fun a b => b.date = a.date + 1) (corrBase corrConsecTable) := by
    rw [hb]
    refine List.chain'_cons.mpr ⟨(by norm_num : (24181 : Int) = 24180 + 1),
      List.chain'_cons.mpr ⟨(by norm_num : (24182 : Int) = 24181 + 1), ?_⟩⟩
    exact List.chain'_singleton _
  have hmem : (BaseRow.mk 24181 (2/10) 6, BaseRow.mk 24180 (1/10) 5) ∈
      pairsAtLag (corrBase corrConsecTable) 1 := by
    rw [hb]
    exact List.mem_cons_self _ _
  exact ⟨(lag_pairs_positional corrConsecTable 2 1 (by omega)).1,
    (lag_pairs_positional corrConsecTable 2 1 (by omega)).2 hchain _ hmem⟩

/-! ## Claim C5 -/

/-- C5: for any lag of a correlation run, when fewer than 3 valid pairs
remain or either aligned sample has numerically zero sample standard
deviation, the recorded Pearson coefficient is null while `n_pairs` still
records the number of valid pairs — and no error is raised (the function
is total and still produces the record). -/
theorem degenerate_pearson_undefined (t : List CRow) (maxLag lag : Nat)
    (hlag : lag ≤ maxLag)
    (hdeg : (pairsAtLag (corrBase t) lag).length < 3
      ∨ stdCloseToZero ((pairsAtLag (corrBase t) lag).map (fun p => p.2.precip)) = true
      ∨ stdCloseToZero ((pairsAtLag (corrBase t) lag).map (fun p => p.1.ndvi)) = true) :
    (correlateRainNdvi t maxLag).get? lag =
      some (CorrRecord.mk lag none (pairsAtLag (corrBase t) lag).length) := by
  rw [correlate_get hlag]
  simp only [mkCorrRecord]
  rw [if_pos hdeg]

/-- Witness for C5 (Scenario C): constant precipitation at lag 0 on
`corrConstPrecip` gives a null coefficient with `n_pairs = 3`. -/
theorem degenerate_pearson_undefined_witness :
    (stdCloseToZero ((pairsAtLag (corrBase corrConstPrecip) 0).map
        (fun p => p.2.precip)) = true) ∧
    (pairsAtLag (corrBase corrConstPrecip) 0).length = 3 ∧
    (correlateRainNdvi corrConstPrecip 0).get? 0 =
      some (CorrRecord.mk 0 none (pairsAtLag (corrBase corrConstPrecip) 0).length) :=
  ⟨by with_unfolding_all rfl, by with_unfolding_all rfl,
   degenerate_pearson_undefined corrConstPrecip 0 0 (Nat.le_refl 0)
     (Or.inr (Or.inl (by with_unfolding_all rfl)))⟩

/-! ## Claim C10 -/

theorem orderedInsert_all_le {α : Type} (r : α → α → Prop) [DecidableRel r]
    {a : α} {l : List α} (h : ∀ x ∈ l, r a x) :
    List.orderedInsert r a l = a :: l := by
  cases l with
  | nil => rfl
  | cons b m => rw [List.orderedInsert, if_pos (h b (List.mem_cons_self b m))]

theorem filter_orderedInsert {α : Type} (r : α → α → Prop) [DecidableRel r]
    [IsTrans α r] (p : α → Bool) (a : α) :
    ∀ l : List α, List.Sorted r l →
      (List.orderedInsert r a l).filter p =
        if p a then List.orderedInsert r a (l.filter p) else l.filter p := by
  intro l
  induction l with
  | nil =>
      intro _
      cases hpa : p a <;> simp [List.orderedInsert, List.filter, hpa]
  | cons b m ih =>
      intro hs
      have hmem : ∀ x ∈ m, r b x := List.rel_of_sorted_cons hs
      have hs' : List.Sorted r m := hs.of_cons
      rw [List.orderedInsert]
      by_cases hab : r a b
      · rw [if_pos hab]
        cases hpa : p a with
        | true =>
            cases hpb : p b with
            | true =>
                simp [List.filter_cons, hpa, hpb, List.orderedInsert, if_pos hab]
            | false =>
                have hall : ∀ x ∈ m.filter p, r a x := fun x hx =>
                  Trans.trans hab (hmem x (List.mem_of_mem_filter hx))
                simp [List.filter_cons, hpa, hpb, orderedInsert_all_le r hall]
        | false =>
            simp [List.filter_cons, hpa]
      · rw [if_neg hab]
        cases hpa : p a with
        | true =>
            cases hpb : p b with
            | true =>
                simp [List.filter_cons, hpb, ih hs', hpa, List.orderedInsert, if_neg hab]
            | false =>
                simp [List.filter_cons, hpb, ih hs', hpa]
        | false =>
            cases hpb : p b with
            | true => simp [List.filter_cons, hpb, ih hs', hpa]
            | false => simp [List.filter_cons, hpb, ih hs', hpa]

theorem filter_insertionSort {α : Type} (r : α → α → Prop) [DecidableRel r]
    [IsTotal α r] [IsTrans α r] (p : α → Bool) :
    ∀ l : List α, (List.insertionSort r l).filter p = List.insertionSort r (l.filter p) := by
  intro l
  induction l with
  | nil => rfl
  | cons a m ih =>
      rw [List.insertionSort,
        filter_orderedInsert r p a _ (List.sorted_insertionSort r m), ih, List.filter_cons]
      cases hpa : p a with
      | true => simp [List.insertionSort]
      | false => simp

theorem corrBase_filter_inStudyYears (t : List CRow) :
    corrBase (t.filter inStudyYears) = corrBase t := by
  unfold corrBase
  rw [← filter_insertionSort crowLe inStudyYears t, List.filter_filter]
  congr 1
  apply List.filter_congr
  intro x _
  simp

/-- C10: the lag-correlation computation restricts its data to rows whose
date falls in calendar years 2015–2025 before anything else: prefiltering
the master table to that window changes nothing (so rows outside it never
contribute to any lag's coefficient or pair count, whatever values they
hold), and every row of the cleaned base is dated inside the window. -/
theorem correlation_year_window (t : List CRow) (maxLag : Nat) :
    correlateRainNdvi t maxLag = correlateRainNdvi (t.filter inStudyYears) maxLag ∧
    ∀ b ∈ corrBase t, 2015 ≤ yearOfMonth b.date ∧ yearOfMonth b.date ≤ 2025 := by
  constructor
  · unfold correlateRainNdvi
    rw [corrBase_filter_inStudyYears]
  · intro b hb
    unfold corrBase at hb
    obtain ⟨x, hx, hg⟩ := List.mem_filterMap.mp hb
    have hstudy : inStudyYears x = true := (List.mem_filter.mp hx).2
    unfold inStudyYears at hstudy
    simp only [Bool.and_eq_true, decide_eq_true_eq] at hstudy
    have hdate : b.date = x.date := by
      cases hxn : x.ndvi with
      | none => rw [hxn] at hg; simp at hg
      | some va =>
          cases hxp : x.precip with
          | none => rw [hxn, hxp] at hg; simp at hg
          | some vb =>
              rw [hxn, hxp] at hg
              simp only [Option.some.injEq] at hg
              rw [← hg]
    rw [hdate]
    exact hstudy

/-- Witness for C10: the theorem applied to `corrGapTable` and to the
first row of its cleaned base. -/
theorem correlation_year_window_witness :
    (correlateRainNdvi corrGapTable 2 =
      correlateRainNdvi (corrGapTable.filter inStudyYears) 2) ∧
    (2015 ≤ yearOfMonth (BaseRow.mk 24180 (1/10) 5).date ∧
      yearOfMonth (BaseRow.mk 24180 (1/10) 5).date ≤ 2025) := by
  have hb : BaseRow.mk 24180 (1/10) 5 ∈ corrBase corrGapTable := by
    rw [(by with_unfolding_all rfl : corrBase corrGapTable =
      [BaseRow.mk 24180 (1/10) 5, BaseRow.mk 24181 (2/10) 6,
       BaseRow.mk 24183 (3/10) 7])]
    exact List.mem_cons_self _ _
  exact ⟨(correlation_year_window corrGapTable 2).1,
    (correlation_year_window corrGapTable 2).2 _ hb⟩

/-! ## Label-propagation helper lemmas (claim C2) -/

theorem stepRow_year (A : List LRow) (bp : BloomPeriodRow) (r : LRow) :
    (stepRow A bp r).year = r.year := by
  unfold stepRow; split <;> rfl

theorem stepRow_feat (A : List LRow) (bp : BloomPeriodRow) (r : LRow) :
    (stepRow A bp r).feat = r.feat := by
  unfold stepRow; split <;> rfl

theorem applyBloomRecord_eq_map (rows : List LRow) (bp : BloomPeriodRow) :
    applyBloomRecord rows bp = rows.map (stepRow rows bp) := by
  unfold applyBloomRecord stepRow
  by_cases h : rows.any (fun x => x.year = bp.year)
  · rw [if_pos h]
    refine List.map_congr_left (fun r _ => ?_) |>.symm
    rw [if_pos h]
  · rw [if_neg h]
    refine ((List.map_congr_left (fun r _ => ?_)).trans (List.map_id rows)).symm
    rw [if_neg h]
    rfl

theorem any_year_map {rows : List LRow} {g : LRow → LRow}
    (hg : ∀ r, (g r).year = r.year) (y : Int) :
    (rows.map g).any (fun x => decide (x.year = y)) =
      rows.any (fun x => decide (x.year = y)) := by
  induction rows with
  | nil => rfl
  | cons a l ih => simp only [List.map_cons, List.any_cons, hg, ih]

theorem stepAll_nil (A : List LRow) (r : LRow) : stepAll A [] r = r := rfl

theorem stepAll_cons (A : List LRow) (bp : BloomPeriodRow)
    (bs : List BloomPeriodRow) (r : LRow) :
    stepAll A (bp :: bs) r = stepAll A bs (stepRow A bp r) := rfl

theorem stepAll_year (A : List LRow) (bs : List BloomPeriodRow) (r : LRow) :
    (stepAll A bs r).year = r.year := by
  induction bs generalizing r with
  | nil => rfl
  | cons bp bs ih => rw [stepAll_cons, ih, stepRow_year]

theorem stepAll_feat (A : List LRow) (bs : List BloomPeriodRow) (r : LRow) :
    (stepAll A bs r).feat = r.feat := by
  induction bs generalizing r with
  | nil => rfl
  | cons bp bs ih => rw [stepAll_cons, ih, stepRow_feat]

theorem stepAll_congr {A1 A2 : List LRow}
    (h : ∀ y, A1.any (fun x => decide (x.year = y)) =
      A2.any (fun x => decide (x.year = y)))
    (bs : List BloomPeriodRow) (r : LRow) :
    stepAll A1 bs r = stepAll A2 bs r := by
  induction bs generalizing r with
  | nil => rfl
  | cons bp bs ih =>
      rw [stepAll_cons, stepAll_cons, ih]
      congr 1
      unfold stepRow
      rw [h bp.year]

theorem foldl_apply_eq_map (bs : List BloomPeriodRow) (rows : List LRow) :
    bs.foldl applyBloomRecord rows = rows.map (stepAll rows bs) := by
  induction bs generalizing rows with
  | nil =>
      symm
      refine (List.map_congr_left (fun r _ => ?_)).trans (List.map_id rows)
      exact stepAll_nil rows r
  | cons bp bs ih =>
      rw [List.foldl_cons, applyBloomRecord_eq_map, ih, List.map_map]
      refine List.map_congr_left (fun r _ => ?_)
      have hinv : ∀ y, (rows.map (stepRow rows bp)).any (fun x => decide (x.year = y)) =
          rows.any (fun x => decide (x.year = y)) :=
        fun y => any_year_map (stepRow_year rows bp) y
      calc (stepAll (rows.map (stepRow rows bp)) bs ∘ stepRow rows bp) r
          = stepAll (rows.map (stepRow rows bp)) bs (stepRow rows bp r) := rfl
        _ = stepAll rows bs (stepRow rows bp r) := stepAll_congr hinv bs _
        _ = stepAll rows (bp :: bs) r := (stepAll_cons rows bp bs r).symm

theorem stepAll_label (A : List LRow) (bs : List BloomPeriodRow) (r : LRow) :
    (stepAll A bs r).label_available =
      (r.label_available || bs.any (fun bp =>
        A.any (fun x => x.year = bp.year) && decide (r.year = bp.year))) := by
  induction bs generalizing r with
  | nil => simp [stepAll_nil]
  | cons bp bs ih =>
      rw [stepAll_cons, ih, stepRow_year]
      unfold stepRow
      cases h : A.any (fun x => x.year = bp.year) with
      | true => simp [h, List.any_cons, Bool.or_assoc]
      | false => simp [h, List.any_cons]

theorem stepAll_isBloom (A : List LRow) (bs : List BloomPeriodRow) (r : LRow) :
    (stepAll A bs r).is_bloom =
      (if bs.any (fun bp => A.any (fun x => x.year = bp.year) &&
          coveredBy bp r.feat.date) then some 1 else r.is_bloom) := by
  induction bs generalizing r with
  | nil => simp [stepAll_nil]
  | cons bp bs ih =>
      rw [stepAll_cons, ih, stepRow_feat]
      unfold stepRow
      cases h : A.any (fun x => x.year = bp.year) with
      | true =>
          cases hc : coveredBy bp r.feat.date with
          | true => simp [h, hc, List.any_cons]
          | false => simp [h, hc, List.any_cons]
      | false => simp [h, List.any_cons]

theorem any_initRow (features : List FeatRow) (y : Int) :
    (features.map initRow).any (fun x => decide (x.year = y)) =
      features.any (fun f2 => decide (f2.date.year = y)) := by
  induction features with
  | nil => rfl
  | cons a l ih => simp only [List.map_cons, List.any_cons, ih]; rfl

theorem attachLabels_eq (features : List FeatRow) (bloom : List BloomPeriodRow) :
    attachLabels features bloom =
      (features.map initRow).map (fun r0 =>
        if (stepAll (features.map initRow) bloom r0).label_available then
          stepAll (features.map initRow) bloom r0
        else { stepAll (features.map initRow) bloom r0 with is_bloom := none }) := by
  unfold attachLabels
  rw [foldl_apply_eq_map, List.map_map]
  rfl

/-! ## Claim C2 -/

/-- C2: `_attach_labels` marks `label_available` on exactly the monthly
rows whose year appears in the bloom-period table (whether or not that
year's record carries a window); among labeled rows, `is_bloom` is 1
exactly on rows whose date falls inside some record's
`[bloom_start, bloom_end]` (inclusive) and 0 on the other rows of
analysed years; rows of years absent from the table keep
`label_available = False` and unknown (`pd.NA`) bloom status; and the
classifier's training subset (`df[df["label_available"]]`) contains only
labeled rows.  The hypothesis `hwf` states that a record's window only
covers dates of its own year, which holds for every window the detection
stage produces. -/
theorem label_propagation_spec (features : List FeatRow) (bloom : List BloomPeriodRow)
    (hwf : ∀ bp ∈ bloom, ∀ f ∈ features, coveredBy bp f.date = true → f.date.year = bp.year)
    (r : LRow) (hr : r ∈ attachLabels features bloom) :
    (r.label_available = true ↔ ∃ bp ∈ bloom, bp.year = r.year) ∧
    (r.label_available = true →
      ((r.is_bloom = some 1 ↔ ∃ bp ∈ bloom, coveredBy bp r.feat.date = true) ∧
       (r.is_bloom = some 0 ↔ ¬ ∃ bp ∈ bloom, coveredBy bp r.feat.date = true))) ∧
    (r.label_available = false → r.is_bloom = none) ∧
    (∀ x ∈ (attachLabels features bloom).filter (fun v => v.label_available),
      x.label_available = true) := by
  rw [attachLabels_eq] at hr
  obtain ⟨r0, hr0, hr_eq⟩ := List.mem_map.mp hr
  obtain ⟨f, hf, hf0⟩ := List.mem_map.mp hr0
  subst hf0
  have hyear : (stepAll (features.map initRow) bloom (initRow f)).year = f.date.year := by
    rw [stepAll_year]; rfl
  have hfeat : (stepAll (features.map initRow) bloom (initRow f)).feat = f := by
    rw [stepAll_feat]; rfl
  have hself : ∀ bp : BloomPeriodRow, bp.year = f.date.year →
      ((features.map initRow).any (fun x => x.year = bp.year)) = true := by
    intro bp hbp
    rw [any_initRow]
    exact List.any_eq_true.mpr ⟨f, hf, by simp [hbp]⟩
  have hlab : (stepAll (features.map initRow) bloom (initRow f)).label_available =
      bloom.any (fun bp => ((features.map initRow).any (fun x => x.year = bp.year)) &&
        decide (f.date.year = bp.year)) := by
    rw [stepAll_label]
    simp [initRow]
  have hisb : (stepAll (features.map initRow) bloom (initRow f)).is_bloom =
      (if bloom.any (fun bp => ((features.map initRow).any (fun x => x.year = bp.year)) &&
          coveredBy bp f.date) then some 1 else some 0) := by
    rw [stepAll_isBloom]
    rfl
  -- the conjunct about the training filter is independent of `r`
  have htrain : ∀ x ∈ (attachLabels features bloom).filter (fun v => v.label_available),
      x.label_available = true := fun x hx => by
    simpa using (List.mem_filter.mp hx).2
  -- case on whether the row ends up labeled
  by_cases hcase : (stepAll (features.map initRow) bloom (initRow f)).label_available = true
  · rw [if_pos hcase] at hr_eq
    subst hr_eq
    refine ⟨?_, ?_, ?_, htrain⟩
    · constructor
      · intro _
        have h1 : bloom.any (fun bp =>
            ((features.map initRow).any (fun x => x.year = bp.year)) &&
            decide (f.date.year = bp.year)) = true := by
          rw [← hlab]; exact hcase
        obtain ⟨bp, hbp, hcond⟩ := List.any_eq_true.mp h1
        rw [Bool.and_eq_true, decide_eq_true_eq] at hcond
        refine ⟨bp, hbp, ?_⟩
        rw [hyear, ← hcond.2]
      · intro _
        exact hcase
    · intro _
      rw [hisb, hfeat]
      by_cases hc : bloom.any (fun bp =>
          ((features.map initRow).any (fun x => x.year = bp.year)) &&
          coveredBy bp f.date) = true
      · rw [if_pos hc]
        obtain ⟨bp, hbp, hcond⟩ := List.any_eq_true.mp hc
        rw [Bool.and_eq_true] at hcond
        exact ⟨⟨fun _ => ⟨bp, hbp, hcond.2⟩, fun _ => rfl⟩,
          ⟨fun h0 => absurd h0 (by simp), fun hno => absurd ⟨bp, hbp, hcond.2⟩ hno⟩⟩
      · rw [if_neg hc]
        have hnc : ¬ ∃ bp ∈ bloom, coveredBy bp f.date = true := by
          intro ⟨bp, hbp, hcov⟩
          refine hc (List.any_eq_true.mpr ⟨bp, hbp, ?_⟩)
          rw [Bool.and_eq_true]
          exact ⟨hself bp (hwf bp hbp f hf hcov).symm, hcov⟩
        exact ⟨⟨fun h1 => absurd h1 (by simp), fun hex => absurd hex hnc⟩,
          ⟨fun _ => hnc, fun _ => rfl⟩⟩
    · intro hfalse
      rw [hcase] at hfalse
      exact absurd hfalse (by simp)
  · rw [if_neg hcase] at hr_eq
    subst hr_eq
    have hcase2 : (stepAll (features.map initRow) bloom (initRow f)).label_available = false := by
      revert hcase
      cases (stepAll (features.map initRow) bloom (initRow f)).label_available <;> simp
    refine ⟨?_, ?_, fun _ => rfl, htrain⟩
    · constructor
      · intro h
        have h2 : (stepAll (features.map initRow) bloom (initRow f)).label_available = true := h
        rw [hcase2] at h2
        exact absurd h2 (by simp)
      · intro ⟨bp, hbp, hbpy⟩
        exfalso
        apply hcase
        rw [hlab]
        have hbpy2 : bp.year = f.date.year := by
          rw [hbpy]
          exact hyear
        refine List.any_eq_true.mpr ⟨bp, hbp, ?_⟩
        rw [Bool.and_eq_true]
        exact ⟨hself bp hbpy2, by simp [hbpy2]⟩
    · intro habs
      have h2 : (stepAll (features.map initRow) bloom (initRow f)).label_available = true := habs
      rw [hcase2] at h2
      exact absurd h2 (by simp)

/-- Witness for C2: the theorem applied to `labelFeatures` / `labelBloom`
and the June 2020 output row (covered by the window, so labeled 1). -/
theorem label_propagation_spec_witness :
    (∀ bp ∈ labelBloom, ∀ f ∈ labelFeatures,
      coveredBy bp f.date = true → f.date.year = bp.year) ∧
    ((LRow.mk (FeatRow.mk (PDate.mk 2020 6 152) (some (8/10)) none none none none)
        2020 (some 1) true).label_available = true ↔
      ∃ bp ∈ labelBloom, bp.year =
        (LRow.mk (FeatRow.mk (PDate.mk 2020 6 152) (some (8/10)) none none none none)
          2020 (some 1) true).year) := by
  have hrow : LRow.mk (FeatRow.mk (PDate.mk 2020 6 152) (some (8/10)) none none none none)
      2020 (some 1) true ∈ attachLabels labelFeatures labelBloom := by
    rw [(by with_unfolding_all rfl : attachLabels labelFeatures labelBloom =
      [LRow.mk (FeatRow.mk (PDate.mk 2020 6 152) (some (8/10)) none none none none)
        2020 (some 1) true,
       LRow.mk (FeatRow.mk (PDate.mk 2020 7 182) (some (2/10)) none none none none)
        2020 (some 0) true,
       LRow.mk (FeatRow.mk (PDate.mk 2021 3 425) (some (5/10)) none none none none)
        2021 none false])]
    exact List.mem_cons_self _ _
  exact ⟨by decide,
    (label_propagation_spec labelFeatures labelBloom (by decide) _ hrow).1⟩

/-! ## Claim C6 -/

/-- C6: `train_bloom_predictor` validates its scalar arguments first: a
probability threshold outside the open interval (0, 1), or (with a valid
threshold) a non-positive horizon, raises the invalid-argument error
immediately — for any state of the two input tables, including absent
ones (which would otherwise raise the file error), so no table is loaded
and no model computation is attempted first. -/
theorem train_validates_arguments_first (ctx : MLContext) (thr : Rat) (fy : Int)
    (featuresCsv : Option (List FeatRow)) (bloomCsv : Option (List BloomPeriodRow)) :
    (¬ (0 < thr ∧ thr < 1) →
      trainBloomPredictor ctx thr fy featuresCsv bloomCsv =
        Except.error TrainError.invalidThreshold) ∧
    ((0 < thr ∧ thr < 1) → fy ≤ 0 →
      trainBloomPredictor ctx thr fy featuresCsv bloomCsv =
        Except.error TrainError.invalidHorizon) := by
  constructor
  · intro h
    unfold trainBloomPredictor
    rw [if_pos h]
  · intro h1 h2
    unfold trainBloomPredictor
    rw [if_neg (not_not_intro h1), if_pos h2]

/-- Witness for C6: threshold 2 (out of range) and horizon 0 (not
positive), each with both input files absent. -/
theorem train_validates_arguments_first_witness :
    trainBloomPredictor sampleCtx 2 1 none none =
      Except.error TrainError.invalidThreshold ∧
    trainBloomPredictor sampleCtx (1/2) 0 none none =
      Except.error TrainError.invalidHorizon :=
  ⟨(train_validates_arguments_first sampleCtx 2 1 none none).1 (by norm_num),
   (train_validates_arguments_first sampleCtx (1/2) 0 none none).2
     (by norm_num) (by norm_num)⟩

/-! ## Claim C7 -/

theorem clamp01_bounds (x : Rat) : 0 ≤ min 1 (max 0 x) ∧ min 1 (max 0 x) ≤ 1 :=
  ⟨le_min zero_le_one (le_max_left 0 x), min_le_left 1 _⟩

theorem lowerBand_bounds {p s : Rat} (hp0 : 0 ≤ p) (hp1 : p ≤ 1) (hs : 0 ≤ s) :
    0 ≤ (if s = 0 then p else max 0 (p - 49/25 * s)) ∧
    (if s = 0 then p else max 0 (p - 49/25 * s)) ≤ 1 := by
  by_cases h : s = 0
  · rw [if_pos h]; exact ⟨hp0, hp1⟩
  · rw [if_neg h]
    refine ⟨le_max_left 0 _, max_le (by norm_num) ?_⟩
    have hmul : 0 ≤ 49/25 * s := by positivity
    linarith

theorem upperBand_bounds {p s : Rat} (hp0 : 0 ≤ p) (hp1 : p ≤ 1) (hs : 0 ≤ s) :
    0 ≤ (if s = 0 then p else min 1 (p + 49/25 * s)) ∧
    (if s = 0 then p else min 1 (p + 49/25 * s)) ≤ 1 := by
  by_cases h : s = 0
  · rw [if_pos h]; exact ⟨hp0, hp1⟩
  · rw [if_neg h]
    refine ⟨le_min (by norm_num) ?_, min_le_left _ _⟩
    have hmul : 0 ≤ 49/25 * s := by positivity
    linarith

/-- C7: every value the recursive projection loop emits — the clamped
vegetation-index prediction of the forecast rows, and the prediction and
both confidence bounds of the forecast records — lies in [0, 1], for any
regressor output and any (nonnegative, as `np.std`/`np.sqrt` produce)
residual standard deviation. -/
theorem forecast_values_clamped (ctx : MLContext) (regMedians : List Rat)
    (climOf : Nat → ClimVals) (residualStd : Rat) (hstd : 0 ≤ residualStd)
    (dates : List PDate) (history : List Rat) :
    (∀ rec ∈ (projectFuture ctx regMedians climOf residualStd dates history).2.1,
      (0 ≤ rec.ndvi ∧ rec.ndvi ≤ 1) ∧ (0 ≤ rec.lower ∧ rec.lower ≤ 1) ∧
      (0 ≤ rec.upper ∧ rec.upper ≤ 1)) ∧
    (∀ frow ∈ (projectFuture ctx regMedians climOf residualStd dates history).1,
      0 ≤ frow.NDVI ∧ frow.NDVI ≤ 1) := by
  induction dates generalizing history with
  | nil =>
      exact ⟨fun rec h => absurd h (List.not_mem_nil rec),
        fun fr h => absurd h (List.not_mem_nil fr)⟩
  | cons d rest ih =>
      simp only [projectFuture]
      constructor
      · intro rec hrec
        rcases List.mem_cons.mp hrec with rfl | htail
        · have hpred := clamp01_bounds (ctx.hgbRegressor (imputeRow regMedians
            [some (ctx.msin d.month), some (ctx.mcos d.month),
             some (climOf d.month).precip_mm, some (climOf d.month).LST_C,
             some (climOf d.month).soil_moisture, some (climOf d.month).s2_ndvi,
             some (addLagFeature history 1), some (addLagFeature history 2),
             some (addLagFeature history 12)]))
          exact ⟨hpred, lowerBand_bounds hpred.1 hpred.2 hstd,
            upperBand_bounds hpred.1 hpred.2 hstd⟩
        · exact (ih _).1 rec htail
      · intro frow hfrow
        rcases List.mem_cons.mp hfrow with rfl | htail
        · exact clamp01_bounds _
        · exact (ih _).2 frow htail

/-- Witness for C7: one projected month with a regressor that outputs
1000 and residual standard deviation 2 — the record is clamped to
prediction 1, lower bound 0, upper bound 1. -/
theorem forecast_values_clamped_witness :
    (0 : Rat) ≤ 2 ∧
    ((0 ≤ (ForecastRecord.mk (PDate.mk 2030 1 3650) 1 0 1).ndvi ∧
      (ForecastRecord.mk (PDate.mk 2030 1 3650) 1 0 1).ndvi ≤ 1) ∧
     (0 ≤ (ForecastRecord.mk (PDate.mk 2030 1 3650) 1 0 1).lower ∧
      (ForecastRecord.mk (PDate.mk 2030 1 3650) 1 0 1).lower ≤ 1) ∧
     (0 ≤ (ForecastRecord.mk (PDate.mk 2030 1 3650) 1 0 1).upper ∧
      (ForecastRecord.mk (PDate.mk 2030 1 3650) 1 0 1).upper ≤ 1)) := by
  have hmem : ForecastRecord.mk (PDate.mk 2030 1 3650) 1 0 1 ∈
      (projectFuture hugeRegCtx [] (fun _ => ClimVals.mk 0 0 0 0) 2
        [PDate.mk 2030 1 3650] []).2.1 := by
    rw [(by with_unfolding_all rfl :
      (projectFuture hugeRegCtx [] (fun _ => ClimVals.mk 0 0 0 0) 2
        [PDate.mk 2030 1 3650] []).2.1 =
      [ForecastRecord.mk (PDate.mk 2030 1 3650) 1 0 1])]
    exact List.mem_cons_self _ _
  exact ⟨by norm_num,
    (forecast_values_clamped hugeRegCtx [] (fun _ => ClimVals.mk 0 0 0 0) 2
      (by norm_num) [PDate.mk 2030 1 3650] []).1 _ hmem⟩

/-! ## Claim C9 -/

/-- C9 (code bug): on a fully-populated 14-month table whose analysed
year has no covered month — every usable label is the single class 0 —
`train_bloom_predictor` selects the constant `DummyClassifier` fallback
but then raises an `IndexError` in the combined scoring pass: the
dummy's `predict_proba` matrix has one column per class seen in `y`
(here a single column), and `[:, 1]` is out of bounds.  Training
therefore does not complete with a null ROC-AUC as the claim states. -/
theorem single_class_training_crashes :
    (uniqueLabels (((prepareFeatures (attachLabels singleClassFeatures
        singleClassBloom)).filter (fun r => r.label_available)).map
        (fun r => (r.is_bloom).getD 0)) = [0]) ∧
    trainBloomPredictor sampleCtx (1/2) 1 (some singleClassFeatures)
      (some singleClassBloom) = Except.error TrainError.indexError := by
  constructor
  · with_unfolding_all rfl
  · with_unfolding_all rfl

end BloomWatch
